import Mathlib

/-!
Verification development for the duo-live position lifecycle engine.

The definitions below are a shallow embedding of the core trading code of
the repository: the quantity-precision adjustment (`adjust_quantity_precision`
in `live/live_position_monitor.py`), the layered forced-close sequence
(`_force_close` / `_split_close`), the dual-channel critical alert
(`send_critical_alert` in `live/notifier.py`), the exchange client's retry
loop and rate-limit circuit breaker (`BinanceFuturesClient._request` in
`live/binance_client.py`), the 12-hour position evaluation with the
consecutive-surge check (`SurgeShortStrategy.evaluate_position` /
`_check_consecutive_surge` in `live/strategy.py`), the idempotent protective
order placement (`_re_place_single_order`), and the monitor loop
(`run_forever`).  Machine floats of the source are embedded as exact
rationals; Python's `round` (banker's rounding) and `int` (truncation toward
zero) are embedded explicitly.
-/

namespace DuoLive

/-- Python's built-in `round` to an integer: round half to even. -/
def pythonRound (x : ℚ) : ℤ :=
  let f := ⌊x⌋
  let r := x - (f : ℚ)
  if r < 1 / 2 then f
  else if 1 / 2 < r then f + 1
  else if f % 2 = 0 then f else f + 1

/-- Python's `int(x)` on a float/Decimal: truncation toward zero. -/
def truncInt (x : ℚ) : ℤ :=
  if 0 ≤ x then ⌊x⌋ else ⌈x⌉

/-- Python's `round(x, p)`: round to `p` decimal places (half to even). -/
def roundToPrec (x : ℚ) (p : ℕ) : ℚ :=
  (pythonRound (x * 10 ^ p) : ℚ) / 10 ^ p

/-- The decimal precision the source derives from a step size below one:
`abs(int(log10(step_size)))`.  For `0 < s < 1` Python's `int(log10 s)`
truncates the negative logarithm toward zero, which equals
`-⌊log10 (1/s)⌋`; the floor of the base-10 logarithm of `1/s > 1` is
`Nat.log 10 ⌊1/s⌋`. -/
def precisionOf (s : ℚ) : ℕ :=
  Nat.log 10 (⌊s⁻¹⌋).toNat

/-- Embeds `adjust_quantity_precision(quantity, step_size)` from
`live/live_position_monitor.py` (design document `part_011` lines 226-238):
`adjusted = round(quantity / step_size) * step_size`; for step sizes `≥ 1`
the result goes through `int(adjusted)` (truncation), otherwise through
`round(adjusted, precision)` with `precision = abs(int(log10(step_size)))`. -/
def adjust_quantity_precision (quantity step_size : ℚ) : ℚ :=
  let adjusted : ℚ := (pythonRound (quantity / step_size) : ℚ) * step_size
  if 1 ≤ step_size then ((truncInt adjusted : ℤ) : ℚ)
  else roundToPrec adjusted (precisionOf step_size)

/-- The shapes Binance `LOT_SIZE` step sizes take: a positive integer
(1, 10, ...) or a negative power of ten (0.1, 0.01, 0.001, ...). -/
def StepSizeWF (s : ℚ) : Prop :=
  (∃ n : ℕ, 0 < n ∧ s = (n : ℚ)) ∨ (∃ p : ℕ, 0 < p ∧ s = ((10 : ℚ) ^ p)⁻¹)

/-- Order side on the exchange. -/
inductive Side
  | SELL
  | BUY
deriving DecidableEq, Repr

/-- Notification channels of `send_critical_alert` in `live/notifier.py`. -/
inductive Channel
  | telegram
  | email
deriving DecidableEq, Repr

/-- Embeds `send_critical_alert` (`live/notifier.py`): the critical alert
sends on Telegram first and then by email, unconditionally attempting both
channels. -/
def criticalAlertChannels : List Channel :=
  [Channel.telegram, Channel.email]

/-- One observable exchange interaction of the forced-close sequence, in
program order. -/
inductive Event
  | cancelOrder (algoId : ℕ)
  | queryPosition (amt : ℚ)
  | placeClose (side : Side) (qty : ℚ) (reduceOnly : Bool)
  | sleepMs (ms : ℚ)
  | alert (c : Channel)
deriving DecidableEq, Repr

/-- The two exchange rejections `_force_close` compensates for:
`ReduceOnly Order is rejected` (code -4164) and `Margin is insufficient`
(code -4131). -/
inductive CloseErr
  | reduceOnlyRejected
  | marginInsufficient
deriving DecidableEq, Repr

/-- The exchange-side facts a single `_force_close` run observes: the open
conditional (algo) orders for the symbol, the signed position amount
reported by `get_position_risk`, the instrument step size, the outcome of
the first reduce-only close attempt, the outcome of the plain-market retry,
and — for the split-close path — the freshly re-queried remaining amount
and the outcome of the second batch. -/
structure ForceCloseEnv where
  openAlgoOrders : List ℕ
  positionAmt : ℚ
  stepSize : ℚ
  firstAttempt : Option CloseErr
  plainRetryOk : Bool
  remainingAfterFirst : ℚ
  splitSecondOk : Bool
deriving DecidableEq, Repr

/-- Result of a forced close: the trace of exchange interactions, whether
the tracked position was marked closed, and the recorded close reason. -/
structure ForceCloseResult where
  events : List Event
  closed : Bool
  closeReason : String
deriving DecidableEq, Repr

/-- Embeds `_split_close` (`live/live_position_monitor.py`, design document
`part_011` lines 304-318 and 1066-1086): first batch is 50% of the already
rounded quantity, re-rounded to the step size; wait 500 ms; re-query the
remaining position amount from the exchange; close all of it (rounded).
If the second batch also fails, send the dual-channel critical alert and do
not mark the position closed. -/
def splitClose (env : ForceCloseEnv) (side : Side) (qty : ℚ) : ForceCloseResult :=
  let firstBatch := adjust_quantity_precision (qty * (1 / 2)) env.stepSize
  let remaining := env.remainingAfterFirst
  let secondBatch := adjust_quantity_precision remaining env.stepSize
  let splitEvents := [Event.placeClose side firstBatch false, Event.sleepMs 500,
    Event.queryPosition remaining, Event.placeClose side secondBatch false]
  if env.splitSecondOk then
    ⟨splitEvents, true, "force_closed"⟩
  else
    ⟨splitEvents ++ criticalAlertChannels.map Event.alert, false, ""⟩

/-- Embeds `_force_close` (`live/live_position_monitor.py`, design document
`part_011` lines 643-675): cancel every open algo order for the symbol,
query the exchange for the actual position amount, round its absolute value
to the instrument step size, derive the close side from the sign
(`close_side = 'SELL' if is_long else 'BUY'` with `is_long = actual_amt > 0`),
attempt a reduce-only market close; on `ReduceOnly Order is rejected` retry
as a plain market order of the same side and quantity; on
`Margin is insufficient` run the split close.

Modelled from the spec: the snippet ends with the order placement, so the
position-state bookkeeping (marking the position `Closed` with reason
`force_closed` only after a successful close) follows the spec's scenario
"succeeds, position becomes Closed(force_closed)". -/
def forceClose (env : ForceCloseEnv) : ForceCloseResult :=
  let cancels := env.openAlgoOrders.map Event.cancelOrder
  let amt := env.positionAmt
  let qty := adjust_quantity_precision |amt| env.stepSize
  let side := if 0 < amt then Side.SELL else Side.BUY
  let pre := cancels ++ [Event.queryPosition amt, Event.placeClose side qty true]
  match env.firstAttempt with
  | none => ⟨pre, true, "force_closed"⟩
  | some CloseErr.reduceOnlyRejected =>
    if env.plainRetryOk then
      ⟨pre ++ [Event.placeClose side qty false], true, "force_closed"⟩
    else
      ⟨pre ++ [Event.placeClose side qty false], false, ""⟩
  | some CloseErr.marginInsufficient =>
    let rest := splitClose env side qty
    ⟨pre ++ rest.events, rest.closed, rest.closeReason⟩

/-- `BinanceFuturesClient._MAX_RETRIES` (`live/binance_client.py`). -/
def MAX_RETRIES : ℕ := 5

/-- `BinanceFuturesClient._RETRY_BACKOFF` (`live/binance_client.py`):
seconds slept between network-failure attempts. -/
def RETRY_BACKOFF : List ℚ := [2, 4, 8, 16, 32]

/-- What one network attempt of `_request` can produce: a successful
response, a transient network failure (`ConnectError` / `TimeoutException`
/ `ReadError`), or an exchange API error carrying a code; a code `-1003`
(rate-limit ban) response carries the parsed ban-until timestamp. -/
inductive AttemptOutcome
  | ok
  | netErr
  | apiErr (code : ℤ) (banUntilTime : ℚ)
deriving DecidableEq, Repr

/-- Result of one `_request` call: the sleeps performed between retries,
how many network attempts were actually made, whether the call raised,
the API error code when it raised a `BinanceAPIError`, whether it raised a
`BinanceConnectionError`, and the client's `_ban_until` state afterwards. -/
structure ReqResult where
  sleeps : List ℚ
  attempts : ℕ
  raised : Bool
  errCode : Option ℤ
  connError : Bool
  banUntil : ℚ
deriving DecidableEq, Repr

/-- The retry loop of `BinanceFuturesClient._request` (design document
`part_011` lines 722-743): `for attempt in range(_MAX_RETRIES)`; a network
error at `attempt < _MAX_RETRIES - 1` sleeps `_RETRY_BACKOFF[attempt]` and
continues, otherwise raises `BinanceConnectionError`; a `BinanceAPIError`
is not caught by the except-clause and propagates immediately, after
recording the parsed ban time when its code is `-1003` (lines 474-479).
`fuel` is the number of loop iterations left (`_MAX_RETRIES - attempt`);
`fuel = 0` is unreachable from `request` and is mapped to the raised
connection error. -/
def requestAttempts (outcomes : ℕ → AttemptOutcome) (ban : ℚ) :
    ℕ → ℕ → ReqResult
  | _, 0 => ⟨[], 0, true, none, true, ban⟩
  | attempt, fuel + 1 =>
    match outcomes attempt with
    | AttemptOutcome.ok => ⟨[], 1, false, none, false, ban⟩
    | AttemptOutcome.netErr =>
      if attempt < MAX_RETRIES - 1 then
        let wait := RETRY_BACKOFF.getD attempt 0
        let r := requestAttempts outcomes ban (attempt + 1) fuel
        ⟨wait :: r.sleeps, r.attempts + 1, r.raised, r.errCode, r.connError, r.banUntil⟩
      else ⟨[], 1, true, none, true, ban⟩
    | AttemptOutcome.apiErr code banUntilTime =>
      if code = -1003 then ⟨[], 1, true, some code, false, banUntilTime⟩
      else ⟨[], 1, true, some code, false, ban⟩

/-- Embeds `BinanceFuturesClient._request` (design document `part_011`
lines 711-744 and 717-721): before any network activity the circuit
breaker is checked — `if time.time() < self._ban_until` the call raises
`BinanceAPIError(-1003)` at once with zero network attempts; otherwise the
retry loop runs starting at attempt 0. -/
def request (outcomes : ℕ → AttemptOutcome) (now ban : ℚ) : ReqResult :=
  if now < ban then ⟨[], 0, true, some (-1003), false, ban⟩
  else requestAttempts outcomes ban 0 MAX_RETRIES

/-- Binance kline (candlestick) record (design document `part_011`
lines 860-873); `Decimal` fields become exact rationals. -/
structure Kline where
  open_time : ℕ
  openPrice : ℚ
  high : ℚ
  low : ℚ
  close : ℚ
  volume : ℚ
  close_time : ℕ
  quote_volume : ℚ
  trades : ℕ
  taker_buy_base_volume : ℚ
  taker_buy_quote_volume : ℚ
deriving DecidableEq, Repr

/-- Hourly sell volume of a kline: `hour_sell = volume - taker_buy_volume`
(design document `part_011` line 158). -/
def hourSellVolume (k : Kline) : ℚ :=
  k.volume - k.taker_buy_base_volume

/-- Embeds `SurgeShortStrategy._check_consecutive_surge`
(`live/strategy.py`, design document `part_011` lines 144-162): the prior
day's average hourly sell volume is `yesterday.sell_volume / 24`; for the
signal hour and the entry hour the ratio `hour_sell / avg_hour_sell` is
computed, and the check confirms iff both ratios are at least 10. -/
def checkConsecutiveSurge (yesterdaySellVolume : ℚ) (signalHour entryHour : Kline) : Bool :=
  let avgHourSell := yesterdaySellVolume / 24
  decide (10 ≤ hourSellVolume signalHour / avgHourSell ∧
    10 ≤ hourSellVolume entryHour / avgHourSell)

/-- `PositionAction` value object (design document `part_011`
lines 849-855). -/
structure PositionAction where
  action : String
  reason : String
  new_tp_pct : ℚ
  new_strength : String
deriving DecidableEq, Repr

/-- `strong_tp_pct` configuration default (design document `part_011`
appendix B). -/
def strong_tp_pct : ℚ := 33

/-- `medium_tp_pct` configuration default. -/
def medium_tp_pct : ℚ := 21

/-- `weak_tp_pct` configuration default. -/
def weak_tp_pct : ℚ := 10

/-- Embeds the 12-hour branch of `SurgeShortStrategy.evaluate_position`
(`live/strategy.py`, design document `part_011` lines 600-618 together
with the detailed listing in `docs/improvements-from-ae-server.md`
lines 20-43): if the cumulative drop percentage is at least 60 the
position is classified strong and the take-profit set to 33%; otherwise
the consecutive-surge check runs — when it confirms, the current elevated
take-profit is retained (33% for a strong position, 21% otherwise); when
it does not, the position is downgraded to weak with take-profit 10%. -/
def evaluate_position_12h (pctDrop : ℚ) (strength : String)
    (yesterdaySellVolume : ℚ) (signalHour entryHour : Kline) : PositionAction :=
  if 60 ≤ pctDrop then
    ⟨"adjust_tp", "12h drop >= 60%: strong", strong_tp_pct, "strong"⟩
  else if checkConsecutiveSurge yesterdaySellVolume signalHour entryHour then
    ⟨"adjust_tp", "12h consecutive surge: keep tp",
      if strength = "strong" then strong_tp_pct else medium_tp_pct, strength⟩
  else
    ⟨"adjust_tp", "12h no consecutive surge: weak", weak_tp_pct, "weak"⟩

/-- An open conditional (algo) order as returned by
`get_open_algo_orders`, in the exchange's listing order (oldest first). -/
structure AlgoOrder where
  algo_id : ℕ
  order_type : String
deriving DecidableEq, Repr

/-- Result of `_re_place_single_order`: the tracked order id afterwards,
whether a brand-new order was submitted, and the algo ids cancelled as
surplus duplicates. -/
structure RePlaceResult where
  trackedId : Option ℕ
  placedNew : Bool
  cancelledIds : List ℕ
deriving DecidableEq, Repr

/-- Embeds the idempotency guard of `_re_place_single_order`
(`live/live_position_monitor.py`, `docs/DUPLICATE_ORDERS_FIX.md`
lines 16-31): before submission the open algo orders of the symbol are
filtered to the target conditional-order type; if any exist, the first
(oldest) one's id is adopted into the tracked position, every further
match is cancelled, and no new order is created; only when none exist is
a new order submitted (its exchange-assigned id `newId`). -/
def rePlaceSingleOrder (openOrders : List AlgoOrder) (targetType : String)
    (newId : ℕ) : RePlaceResult :=
  let existing := openOrders.filter (fun o => o.order_type = targetType)
  match existing with
  | [] => ⟨some newId, true, []⟩
  | o :: rest => ⟨some o.algo_id, false, rest.map (fun e => e.algo_id)⟩

/-- Modelled from the spec: `live/risk_filters.py` is not among the source
files (only the module table of the dashboard README describes it), so a
single risk filter's evaluation is modelled from §4.3 of the spec: a
filter either fails to fetch its data, or evaluates to pass, or evaluates
to reject with a human-readable reason. -/
inductive FilterOutcome
  | dataUnavailable
  | pass
  | reject (reason : String)
deriving DecidableEq, Repr

/-- Modelled from the spec: each filter is fail-open — a failed data
fetch yields pass (`none`); only an explicit rejection yields its reason
(`some reason`). -/
def runFilter : FilterOutcome → Option String
  | FilterOutcome.dataUnavailable => none
  | FilterOutcome.pass => none
  | FilterOutcome.reject reason => some reason

/-- Modelled from the spec: the Risk Filter Pipeline evaluates its
filters in order and rejects iff some filter rejects, capturing the first
rejection's reason; otherwise it accepts (`none`). -/
def pipeline : List FilterOutcome → Option String
  | [] => none
  | f :: rest =>
    match runFilter f with
    | some reason => some reason
    | none => pipeline rest

/-- What one periodic monitor cycle does (success, or an exception whose
message is logged). -/
inductive CycleOutcome
  | ok
  | exn (msg : String)
deriving DecidableEq, Repr

/-- Observable steps of the monitor loop. -/
inductive MonEvent
  | ranCycle
  | loggedError (msg : String)
  | slept (seconds : ℚ)
deriving DecidableEq, Repr

/-- Recognizes the cycle-execution step of the monitor loop. -/
def isRanCycle : MonEvent → Bool
  | MonEvent.ranCycle => true
  | _ => false

/-- Recognizes the logged-error step of the monitor loop. -/
def isLoggedError : MonEvent → Bool
  | MonEvent.loggedError _ => true
  | _ => false

/-- Recognizes a failing cycle outcome. -/
def isExnOutcome : CycleOutcome → Bool
  | CycleOutcome.exn _ => true
  | CycleOutcome.ok => false

/-- Embeds `run_forever` (design document `part_011` lines 549-558):
`while running:` run `check_all_positions()` inside a `try`, log any
exception, then sleep `monitor_interval_seconds` and start the next
cycle.  The loop is driven by the list of cycle outcomes observed while
`running` stays true; every cycle — failing or not — is followed by the
sleep and then the next cycle. -/
def runForever (interval : ℚ) : List CycleOutcome → List MonEvent
  | [] => []
  | o :: rest =>
    MonEvent.ranCycle ::
      (match o with
        | CycleOutcome.ok => []
        | CycleOutcome.exn msg => [MonEvent.loggedError msg]) ++
      MonEvent.slept interval :: runForever interval rest

/-- `monitor_interval_seconds` default (design document `part_011`
lines 539-544). -/
def monitor_interval_seconds : ℚ := 60

/-- Signal-hour kline for the claim C7 witness: volume 1500 of which 300
taker-buy, so the hourly sell volume is 1200. -/
def klineC7sig : Kline :=
  ⟨0, 1, 1, 1, 1, 1500, 3599999, 0, 10, 300, 0⟩

/-- Entry-hour kline for the claim C7 witness: volume 1300 of which 300
taker-buy, so the hourly sell volume is 1000. -/
def klineC7ent : Kline :=
  ⟨3600000, 1, 1, 1, 1, 1300, 7199999, 0, 10, 300, 0⟩

/-- A long and a short forced-close environment for the claim C1 witness. -/
def envC1long : ForceCloseEnv :=
  ⟨[7, 8], 5, 1, none, true, 0, true⟩

/-- Short-position variant of the claim C1 witness environment. -/
def envC1short : ForceCloseEnv :=
  ⟨[], -3, 1, none, true, 0, true⟩

/-- Environment for the claim C3 witness: a short position of exchange
amount `-4` whose reduce-only close is rejected. -/
def envC3 : ForceCloseEnv :=
  ⟨[21], -4, 1, some CloseErr.reduceOnlyRejected, true, 0, true⟩

/-- Environment for the claim C2 witness: a long position of exchange
amount `9` whose close is rejected for insufficient margin; after the
first half-close `5` the exchange reports `4` remaining, and the second
batch also fails. -/
def envC2 : ForceCloseEnv :=
  ⟨[], 9, 1, some CloseErr.marginInsufficient, true, 4, false⟩

/-- Open conditional orders for the claim C8 witness: two take-profit
orders (a retried submission created a duplicate) and one stop-loss. -/
def ordersC8 : List AlgoOrder :=
  [⟨11, "TAKE_PROFIT_MARKET"⟩, ⟨12, "STOP_MARKET"⟩, ⟨13, "TAKE_PROFIT_MARKET"⟩]

theorem pythonRound_close (x : ℚ) : |(pythonRound x : ℚ) - x| ≤ 1 / 2 := by
  unfold pythonRound
  have h0 : (⌊x⌋ : ℚ) ≤ x := Int.floor_le x
  have h1 : x < (⌊x⌋ : ℚ) + 1 := Int.lt_floor_add_one x
  by_cases hlt : x - (⌊x⌋ : ℚ) < 1 / 2
  · simp only [hlt, if_true]
    rw [abs_le]
    constructor <;> linarith
  · by_cases hgt : 1 / 2 < x - (⌊x⌋ : ℚ)
    · simp only [hlt, hgt, if_false, if_true]
      rw [abs_le]
      push_cast
      constructor <;> linarith
    · have heq : x - (⌊x⌋ : ℚ) = 1 / 2 := le_antisymm (not_lt.mp hgt) (not_lt.mp hlt)
      by_cases hev : ⌊x⌋ % 2 = 0
      · simp only [hlt, hgt, hev, if_false, if_true]
        rw [abs_le]
        constructor <;> linarith
      · simp only [hlt, hgt, hev, if_false]
        rw [abs_le]
        push_cast
        constructor <;> linarith

theorem pythonRound_intCast (k : ℤ) : pythonRound (k : ℚ) = k := by
  unfold pythonRound
  have hf : ⌊(k : ℚ)⌋ = k := Int.floor_intCast k
  simp [hf]

theorem truncInt_intCast (k : ℤ) : truncInt (k : ℚ) = k := by
  unfold truncInt
  by_cases h : (0 : ℚ) ≤ (k : ℚ) <;> simp [h]

/-- On well-formed step sizes the adjusted quantity is the exact multiple
`round(q/s) * s` of the step size. -/
theorem adjust_eq_round_mul (q s : ℚ) (hs : StepSizeWF s) :
    adjust_quantity_precision q s = (pythonRound (q / s) : ℚ) * s := by
  rcases hs with ⟨n, hn, rfl⟩ | ⟨p, hp, rfl⟩
  · have h1 : (1 : ℚ) ≤ (n : ℚ) := by exact_mod_cast hn
    unfold adjust_quantity_precision
    simp only [h1, if_true]
    have hcast : (pythonRound (q / (n : ℚ)) : ℚ) * (n : ℚ)
        = ((pythonRound (q / (n : ℚ)) * (n : ℤ) : ℤ) : ℚ) := by push_cast; ring
    rw [hcast, truncInt_intCast]
  · have hlt : ((10 : ℚ) ^ p)⁻¹ < 1 := by
      rw [inv_lt_one_iff₀]
      right
      exact one_lt_pow₀ (by norm_num) (by omega)
    have hnotge : ¬ (1 : ℚ) ≤ ((10 : ℚ) ^ p)⁻¹ := not_le.mpr hlt
    unfold adjust_quantity_precision
    simp only [hnotge, if_false]
    have hprec : precisionOf ((10 : ℚ) ^ p)⁻¹ = p := by
      unfold precisionOf
      rw [inv_inv]
      have : ⌊(10 : ℚ) ^ p⌋ = (10 : ℤ) ^ p := by
        rw [show ((10 : ℚ) ^ p) = (((10 : ℤ) ^ p : ℤ) : ℚ) by push_cast; ring]
        exact Int.floor_intCast _
      rw [this]
      have h2 : ((10 : ℤ) ^ p) = ((10 ^ p : ℕ) : ℤ) := by push_cast; ring
      rw [h2, Int.toNat_natCast]
      exact Nat.log_pow (by norm_num) p
    rw [hprec]
    unfold roundToPrec
    have harg : (pythonRound (q / ((10 : ℚ) ^ p)⁻¹) : ℚ) * ((10 : ℚ) ^ p)⁻¹ * 10 ^ p
        = (pythonRound (q / ((10 : ℚ) ^ p)⁻¹) : ℚ) := by
      field_simp
    rw [harg, pythonRound_intCast, div_eq_mul_inv]

/-- On well-formed step sizes the adjusted quantity is within half a step
of the raw quantity. -/
theorem adjust_close (q s : ℚ) (hs : StepSizeWF s) :
    |adjust_quantity_precision q s - q| ≤ s / 2 := by
  have hpos : 0 < s := by
    rcases hs with ⟨n, hn, rfl⟩ | ⟨p, _, rfl⟩
    · exact_mod_cast hn
    · positivity
  rw [adjust_eq_round_mul q s hs]
  have hsplit : (pythonRound (q / s) : ℚ) * s - q = ((pythonRound (q / s) : ℚ) - q / s) * s := by
    field_simp
  rw [hsplit, abs_mul, abs_of_pos hpos]
  have hkey := mul_le_mul_of_nonneg_right (pythonRound_close (q / s)) hpos.le
  linarith

/-- On well-formed step sizes the adjusted quantity is an integer multiple
of the step size. -/
theorem adjust_is_multiple (q s : ℚ) (hs : StepSizeWF s) :
    ∃ k : ℤ, adjust_quantity_precision q s = (k : ℚ) * s :=
  ⟨pythonRound (q / s), adjust_eq_round_mul q s hs⟩

/-- Claim C5, as stated, is false on the code: for raw quantity `q = 3/5`
and step size `s = 1` the adjustment `round(q/s)*s` yields `1`, which is a
multiple of the step size but is strictly greater than `q`, refuting
`adjusted ≤ q`. -/
theorem C5_counterexample :
    adjust_quantity_precision (3 / 5) 1 = 1 ∧
    ¬ adjust_quantity_precision (3 / 5) 1 ≤ 3 / 5 := by
  have h : adjust_quantity_precision (3 / 5) 1 = 1 := by
    unfold adjust_quantity_precision pythonRound truncInt
    norm_num
  refine ⟨h, ?_⟩
  rw [h]
  norm_num

/-- Claim C5 (amended): for every raw quantity `q` and every step size `s`
of the instrument's `LOT_SIZE` shape (a positive integer or a negative
power of ten), the adjustment computes `adjusted = round(q/s) * s`, the
adjusted value is an integer multiple of `s`, and it lies within half a
step of the raw quantity (`|adjusted - q| ≤ s/2`, hence
`adjusted ≤ q + s/2`); the original bound `adjusted ≤ q` does not hold. -/
theorem C5_adjust_quantity_precision (q s : ℚ) (hs : StepSizeWF s) :
    adjust_quantity_precision q s = (pythonRound (q / s) : ℚ) * s ∧
    (∃ k : ℤ, adjust_quantity_precision q s = (k : ℚ) * s) ∧
    |adjust_quantity_precision q s - q| ≤ s / 2 :=
  ⟨adjust_eq_round_mul q s hs, adjust_is_multiple q s hs, adjust_close q s hs⟩

/-- Witness for the amended claim C5 at `q = 123/100`, `s = 1/10`. -/
theorem C5_witness :
    StepSizeWF (1 / 10) ∧
    (∃ k : ℤ, adjust_quantity_precision (123 / 100) (1 / 10) = (k : ℚ) * (1 / 10)) ∧
    |adjust_quantity_precision (123 / 100) (1 / 10) - 123 / 100| ≤ (1 / 10) / 2 := by
  have hs : StepSizeWF (1 / 10) := Or.inr ⟨1, by norm_num, by norm_num⟩
  obtain ⟨_, h2, h3⟩ := C5_adjust_quantity_precision (123 / 100) (1 / 10) hs
  exact ⟨hs, h2, h3⟩

/-- Claim C1: every forced close first cancels every open conditional
order for the symbol, then queries the exchange for the actual position
amount, rounds the absolute quantity to the instrument step size, and
derives the close side from the sign of the exchange-reported amount:
positive (long) closes with SELL, negative (short) closes with BUY. -/
theorem C1_force_close_sequence (env : ForceCloseEnv) :
    ∃ side rest,
      (forceClose env).events
        = env.openAlgoOrders.map Event.cancelOrder
          ++ Event.queryPosition env.positionAmt
            :: Event.placeClose side
                 (adjust_quantity_precision |env.positionAmt| env.stepSize) true
            :: rest
      ∧ (0 < env.positionAmt → side = Side.SELL)
      ∧ (env.positionAmt < 0 → side = Side.BUY) := by
  refine ⟨if 0 < env.positionAmt then Side.SELL else Side.BUY, ?_⟩
  have hside₁ : 0 < env.positionAmt →
      (if 0 < env.positionAmt then Side.SELL else Side.BUY) = Side.SELL :=
    fun hp => if_pos hp
  have hside₂ : env.positionAmt < 0 →
      (if 0 < env.positionAmt then Side.SELL else Side.BUY) = Side.BUY :=
    fun hn => if_neg (asymm hn)
  match h : env.firstAttempt with
  | none =>
    exact ⟨[], by simp [forceClose, h], hside₁, hside₂⟩
  | some CloseErr.reduceOnlyRejected =>
    refine ⟨[Event.placeClose (if 0 < env.positionAmt then Side.SELL else Side.BUY)
      (adjust_quantity_precision |env.positionAmt| env.stepSize) false], ?_, hside₁, hside₂⟩
    cases hr : env.plainRetryOk <;> simp [forceClose, h, hr]
  | some CloseErr.marginInsufficient =>
    refine ⟨(splitClose env (if 0 < env.positionAmt then Side.SELL else Side.BUY)
      (adjust_quantity_precision |env.positionAmt| env.stepSize)).events, ?_, hside₁, hside₂⟩
    simp [forceClose, h]

/-- Witness for claim C1: a long position (amount `5`) is closed with SELL
after both conditional orders are cancelled, and a short position
(amount `-3`) is closed with BUY. -/
theorem C1_witness :
    (∃ side rest,
      (forceClose envC1long).events
        = [Event.cancelOrder 7, Event.cancelOrder 8]
          ++ Event.queryPosition 5
            :: Event.placeClose side (adjust_quantity_precision |(5 : ℚ)| 1) true :: rest
      ∧ side = Side.SELL) ∧
    (∃ side rest,
      (forceClose envC1short).events
        = Event.queryPosition (-3)
            :: Event.placeClose side (adjust_quantity_precision |(-3 : ℚ)| 1) true :: rest
      ∧ side = Side.BUY) := by
  constructor
  · obtain ⟨side, rest, hev, hpos, _⟩ := C1_force_close_sequence envC1long
    exact ⟨side, rest, by simpa [envC1long] using hev, hpos (by norm_num [envC1long])⟩
  · obtain ⟨side, rest, hev, _, hneg⟩ := C1_force_close_sequence envC1short
    exact ⟨side, rest, by simpa [envC1short] using hev, hneg (by norm_num [envC1short])⟩

/-- Claim C3: when the reduce-only market close is rejected as a
reduce-only violation, the executor immediately retries as a plain
(non-reduce-only) market order of the identical side and quantity, and on
success the position becomes Closed with reason `force_closed`. -/
theorem C3_reduce_only_retry (env : ForceCloseEnv)
    (hro : env.firstAttempt = some CloseErr.reduceOnlyRejected)
    (hok : env.plainRetryOk = true) :
    ∃ side,
      (forceClose env).events
        = env.openAlgoOrders.map Event.cancelOrder
          ++ [Event.queryPosition env.positionAmt,
              Event.placeClose side
                (adjust_quantity_precision |env.positionAmt| env.stepSize) true,
              Event.placeClose side
                (adjust_quantity_precision |env.positionAmt| env.stepSize) false]
      ∧ (forceClose env).closed = true
      ∧ (forceClose env).closeReason = "force_closed" := by
  refine ⟨if 0 < env.positionAmt then Side.SELL else Side.BUY, ?_, ?_, ?_⟩ <;>
    simp [forceClose, hro, hok]

/-- Witness for claim C3: the rejected reduce-only close of the `-4`
position is retried as a plain market order of the same side and quantity
and the position ends Closed with reason `force_closed`. -/
theorem C3_witness :
    envC3.firstAttempt = some CloseErr.reduceOnlyRejected ∧
    envC3.plainRetryOk = true ∧
    (∃ side,
      (forceClose envC3).events
        = [Event.cancelOrder 21,
           Event.queryPosition (-4),
           Event.placeClose side (adjust_quantity_precision |(-4 : ℚ)| 1) true,
           Event.placeClose side (adjust_quantity_precision |(-4 : ℚ)| 1) false]
      ∧ (forceClose envC3).closed = true
      ∧ (forceClose envC3).closeReason = "force_closed") := by
  refine ⟨rfl, rfl, ?_⟩
  obtain ⟨side, hev, hc, hr⟩ := C3_reduce_only_retry envC3 rfl rfl
  exact ⟨side, by simpa [envC3] using hev, hc, hr⟩

/-- Claim C2: when the close order is rejected for insufficient margin the
close is split into exactly two sequential partial closes — the first
batch is the step-rounded half of the rounded quantity (within half a
step of 50%), then after the fixed 500 ms delay the remaining position
amount is re-queried from the exchange and all of it (step-rounded) is
closed; if this second attempt also fails the dual-channel critical alert
(Telegram and email) is sent and the position is not marked closed. -/
theorem C2_margin_insufficient_split (env : ForceCloseEnv)
    (hmargin : env.firstAttempt = some CloseErr.marginInsufficient)
    (hs : StepSizeWF env.stepSize) :
    ∃ side,
      |adjust_quantity_precision
          (adjust_quantity_precision |env.positionAmt| env.stepSize * (1 / 2)) env.stepSize
        - adjust_quantity_precision |env.positionAmt| env.stepSize * (1 / 2)|
        ≤ env.stepSize / 2
      ∧ (env.splitSecondOk = true →
          (forceClose env).events
            = env.openAlgoOrders.map Event.cancelOrder
              ++ [Event.queryPosition env.positionAmt,
                  Event.placeClose side
                    (adjust_quantity_precision |env.positionAmt| env.stepSize) true,
                  Event.placeClose side
                    (adjust_quantity_precision
                      (adjust_quantity_precision |env.positionAmt| env.stepSize * (1 / 2))
                      env.stepSize) false,
                  Event.sleepMs 500,
                  Event.queryPosition env.remainingAfterFirst,
                  Event.placeClose side
                    (adjust_quantity_precision env.remainingAfterFirst env.stepSize) false])
      ∧ (env.splitSecondOk = false →
          (forceClose env).events
            = env.openAlgoOrders.map Event.cancelOrder
              ++ [Event.queryPosition env.positionAmt,
                  Event.placeClose side
                    (adjust_quantity_precision |env.positionAmt| env.stepSize) true,
                  Event.placeClose side
                    (adjust_quantity_precision
                      (adjust_quantity_precision |env.positionAmt| env.stepSize * (1 / 2))
                      env.stepSize) false,
                  Event.sleepMs 500,
                  Event.queryPosition env.remainingAfterFirst,
                  Event.placeClose side
                    (adjust_quantity_precision env.remainingAfterFirst env.stepSize) false,
                  Event.alert Channel.telegram,
                  Event.alert Channel.email]
            ∧ (forceClose env).closed = false) := by
  refine ⟨if 0 < env.positionAmt then Side.SELL else Side.BUY,
    adjust_close _ _ hs, ?_, ?_⟩
  · intro hok
    simp [forceClose, splitClose, hmargin, hok]
  · intro hfail
    constructor
    · simp [forceClose, splitClose, hmargin, hfail, criticalAlertChannels]
    · simp [forceClose, splitClose, hmargin, hfail]

/-- Witness for claim C2 at `envC2`: the first batch is the rounded half
(within half a step of 4.5), the 500 ms delay and the re-query of the
remainder follow, and the failing second batch triggers the Telegram plus
email critical alert while the position stays unclosed. -/
theorem C2_witness :
    envC2.firstAttempt = some CloseErr.marginInsufficient ∧
    StepSizeWF envC2.stepSize ∧
    (∃ side,
      |adjust_quantity_precision
          (adjust_quantity_precision |(9 : ℚ)| 1 * (1 / 2)) 1
        - adjust_quantity_precision |(9 : ℚ)| 1 * (1 / 2)| ≤ (1 : ℚ) / 2
      ∧ ((forceClose envC2).events
          = [Event.queryPosition 9,
             Event.placeClose side (adjust_quantity_precision |(9 : ℚ)| 1) true,
             Event.placeClose side
               (adjust_quantity_precision (adjust_quantity_precision |(9 : ℚ)| 1 * (1 / 2)) 1)
               false,
             Event.sleepMs 500,
             Event.queryPosition 4,
             Event.placeClose side (adjust_quantity_precision (4 : ℚ) 1) false,
             Event.alert Channel.telegram,
             Event.alert Channel.email]
        ∧ (forceClose envC2).closed = false)) := by
  have hs : StepSizeWF envC2.stepSize := Or.inl ⟨1, by norm_num, by simp [envC2]⟩
  refine ⟨rfl, hs, ?_⟩
  obtain ⟨side, hclose, _, hfail⟩ := C2_margin_insufficient_split envC2 rfl hs
  obtain ⟨hev, hnc⟩ := hfail rfl
  exact ⟨side, by simpa [envC2] using hclose, by simpa [envC2] using hev, hnc⟩

/-- Claim C4 concerns the retry loop under sustained transient network
failure.  This theorem evaluates the embedded `_request` loop when every
attempt raises a network error: the loop `for attempt in range(5)` makes
exactly 5 network attempts, sleeps only `[2, 4, 8, 16]` seconds (30 s in
total, since the raise happens at `attempt = _MAX_RETRIES - 1` before
`_RETRY_BACKOFF[4] = 32` is ever used), and it is the 5th failed attempt
that raises the connection error — not the delay sequence
`[2, 4, 8, 16, 32]` (62 s) with a raising 6th attempt that the claim and
the code's own documentation state. -/
theorem C4_sustained_network_failure :
    request (fun _ => AttemptOutcome.netErr) 0 0
      = ⟨[2, 4, 8, 16], 5, true, none, true, 0⟩
    ∧ (request (fun _ => AttemptOutcome.netErr) 0 0).sleeps ≠ RETRY_BACKOFF := by
  have h : request (fun _ => AttemptOutcome.netErr) 0 0
      = ⟨[2, 4, 8, 16], 5, true, none, true, 0⟩ := by
    show requestAttempts (fun _ => AttemptOutcome.netErr) 0 0 MAX_RETRIES = _
    show requestAttempts (fun _ => AttemptOutcome.netErr) 0 0 (4 + 1) = _
    simp [requestAttempts, MAX_RETRIES, RETRY_BACKOFF]
  refine ⟨h, ?_⟩
  rw [h]
  simp [RETRY_BACKOFF]

/-- Claim C6: a rate-limit-ban response (code `-1003`) is never retried —
it raises after a single network attempt with no sleeps and records the
parsed ban-until timestamp in the client's `_ban_until`; and every call
made while the current time is still before `_ban_until` raises
immediately with zero network attempts. -/
theorem C6_ban_circuit_breaker (outcomes : ℕ → AttemptOutcome)
    (now ban banUntilTime : ℚ) :
    (now < ban →
      request outcomes now ban = ⟨[], 0, true, some (-1003), false, ban⟩) ∧
    (¬ now < ban → outcomes 0 = AttemptOutcome.apiErr (-1003) banUntilTime →
      request outcomes now ban = ⟨[], 1, true, some (-1003), false, banUntilTime⟩) := by
  constructor
  · intro h
    simp [request, h]
  · intro h h0
    have h5 : MAX_RETRIES = 4 + 1 := rfl
    simp [request, h, h5, requestAttempts, h0]

/-- Witness for claim C6: a call at time 0 during a ban until 10 makes no
network attempt and raises; a call at time 20 (after the window) whose
first attempt returns the ban error makes exactly one attempt, raises,
and records the new ban-until 99. -/
theorem C6_witness :
    ((0 : ℚ) < 10 ∧
      request (fun _ => AttemptOutcome.ok) 0 10
        = ⟨[], 0, true, some (-1003), false, 10⟩) ∧
    (¬ (20 : ℚ) < 10 ∧
      request (fun _ => AttemptOutcome.apiErr (-1003) 99) 20 10
        = ⟨[], 1, true, some (-1003), false, 99⟩) := by
  constructor
  · exact ⟨by norm_num,
      (C6_ban_circuit_breaker (fun _ => AttemptOutcome.ok) 0 10 0).1 (by norm_num)⟩
  · exact ⟨by norm_num,
      (C6_ban_circuit_breaker (fun _ => AttemptOutcome.apiErr (-1003) 99) 20 10 99).2
        (by norm_num) rfl⟩

/-- Claim C7: at the 12-hour evaluation, a cumulative drop percentage of
at least 60 classifies the position strong with take-profit 33 regardless
of the earlier classification; below 60, a confirmed consecutive surge
retains the elevated take-profit (33 for a strong position, 21
otherwise) via `adjust_tp`, an unconfirmed surge downgrades to 10 via
`adjust_tp`; and (for a positive prior-day sell volume) the surge check
confirms exactly when both the signal hour and the entry hour show sell
volume at least ten times the prior day's average hourly sell volume. -/
theorem C7_twelve_hour_evaluation (pctDrop : ℚ) (strength : String)
    (ys : ℚ) (sk ek : Kline) :
    (60 ≤ pctDrop →
      (evaluate_position_12h pctDrop strength ys sk ek).action = "adjust_tp" ∧
      (evaluate_position_12h pctDrop strength ys sk ek).new_tp_pct = strong_tp_pct ∧
      (evaluate_position_12h pctDrop strength ys sk ek).new_strength = "strong") ∧
    (pctDrop < 60 → checkConsecutiveSurge ys sk ek = true →
      (evaluate_position_12h pctDrop strength ys sk ek).action = "adjust_tp" ∧
      (evaluate_position_12h pctDrop strength ys sk ek).new_tp_pct
        = (if strength = "strong" then strong_tp_pct else medium_tp_pct)) ∧
    (pctDrop < 60 → checkConsecutiveSurge ys sk ek = false →
      (evaluate_position_12h pctDrop strength ys sk ek).action = "adjust_tp" ∧
      (evaluate_position_12h pctDrop strength ys sk ek).new_tp_pct = weak_tp_pct ∧
      (evaluate_position_12h pctDrop strength ys sk ek).new_strength = "weak") ∧
    (0 < ys →
      (checkConsecutiveSurge ys sk ek = true ↔
        10 * (ys / 24) ≤ hourSellVolume sk ∧ 10 * (ys / 24) ≤ hourSellVolume ek)) := by
  refine ⟨?_, ?_, ?_, ?_⟩
  · intro h
    simp [evaluate_position_12h, h]
  · intro h hsurge
    have h60 : ¬ 60 ≤ pctDrop := not_le.mpr h
    simp [evaluate_position_12h, h60, hsurge]
  · intro h hsurge
    have h60 : ¬ 60 ≤ pctDrop := not_le.mpr h
    simp [evaluate_position_12h, h60, hsurge]
  · intro hys
    have havg : (0 : ℚ) < ys / 24 := by positivity
    simp only [checkConsecutiveSurge, decide_eq_true_eq]
    rw [le_div_iff₀ havg, le_div_iff₀ havg]

/-- Witness for claim C7: with a prior-day sell volume of 2400 (average
100 per hour), a signal hour selling 1200 and an entry hour selling 1000
confirm the surge, and a position of strength `"medium"` with a drop of
40 retains take-profit 21. -/
theorem C7_witness :
    (40 : ℚ) < 60 ∧ (0 : ℚ) < 2400 ∧
    checkConsecutiveSurge 2400 klineC7sig klineC7ent = true ∧
    (evaluate_position_12h 40 "medium" 2400 klineC7sig klineC7ent).action = "adjust_tp" ∧
    (evaluate_position_12h 40 "medium" 2400 klineC7sig klineC7ent).new_tp_pct = 21 := by
  have hsurge : checkConsecutiveSurge 2400 klineC7sig klineC7ent = true := by
    have h := (C7_twelve_hour_evaluation 40 "medium" 2400 klineC7sig klineC7ent).2.2.2
      (by norm_num)
    rw [h]
    constructor <;>
      simp [klineC7sig, klineC7ent, hourSellVolume] <;> norm_num
  obtain ⟨hact, htp⟩ :=
    (C7_twelve_hour_evaluation 40 "medium" 2400 klineC7sig klineC7ent).2.1
      (by norm_num) hsurge
  refine ⟨by norm_num, by norm_num, hsurge, hact, ?_⟩
  rw [htp]
  simp [medium_tp_pct]

/-- Claim C8: when a matching open conditional order already exists,
protective-order placement does not create a second order — it adopts the
first (oldest) existing order's id into the tracked position, cancels
every surplus duplicate, and the matching orders then consist of exactly
the adopted first one followed by the cancelled ones. -/
theorem C8_protective_order_idempotent (openOrders : List AlgoOrder)
    (targetType : String) (newId : ℕ) (o : AlgoOrder) (rest : List AlgoOrder)
    (h : openOrders.filter (fun x => x.order_type = targetType) = o :: rest) :
    (rePlaceSingleOrder openOrders targetType newId).placedNew = false ∧
    (rePlaceSingleOrder openOrders targetType newId).trackedId = some o.algo_id ∧
    (rePlaceSingleOrder openOrders targetType newId).cancelledIds
      = rest.map (fun e => e.algo_id) ∧
    (openOrders.filter (fun x => x.order_type = targetType)).map (fun e => e.algo_id)
      = o.algo_id :: (rePlaceSingleOrder openOrders targetType newId).cancelledIds := by
  refine ⟨?_, ?_, ?_, ?_⟩ <;> simp [rePlaceSingleOrder, h]

/-- Witness for claim C8: with duplicate open take-profit orders 11 and
13, the placement adopts id 11, cancels 13, and creates no new order. -/
theorem C8_witness :
    ordersC8.filter (fun x => x.order_type = "TAKE_PROFIT_MARKET")
      = [⟨11, "TAKE_PROFIT_MARKET"⟩, ⟨13, "TAKE_PROFIT_MARKET"⟩] ∧
    (rePlaceSingleOrder ordersC8 "TAKE_PROFIT_MARKET" 99).placedNew = false ∧
    (rePlaceSingleOrder ordersC8 "TAKE_PROFIT_MARKET" 99).trackedId = some 11 ∧
    (rePlaceSingleOrder ordersC8 "TAKE_PROFIT_MARKET" 99).cancelledIds = [13] := by
  have h : ordersC8.filter (fun x => x.order_type = "TAKE_PROFIT_MARKET")
      = [(⟨11, "TAKE_PROFIT_MARKET"⟩ : AlgoOrder), ⟨13, "TAKE_PROFIT_MARKET"⟩] := by
    simp [ordersC8]
  obtain ⟨h1, h2, h3, _⟩ := C8_protective_order_idempotent ordersC8
    "TAKE_PROFIT_MARKET" 99 ⟨11, "TAKE_PROFIT_MARKET"⟩ [⟨13, "TAKE_PROFIT_MARKET"⟩] h
  exact ⟨h, h1, h2, by simpa using h3⟩

/-- Claim C9: each risk filter whose own data fetch fails returns pass
(fail-open), and the pipeline rejects iff at least one filter rejects, in
which case the captured reason is the first rejecting filter's reason
(every filter before it passed); otherwise the pipeline accepts. -/
theorem C9_risk_pipeline (fs : List FilterOutcome) :
    runFilter FilterOutcome.dataUnavailable = none ∧
    ((pipeline fs).isSome ↔ ∃ reason, FilterOutcome.reject reason ∈ fs) ∧
    (∀ reason, pipeline fs = some reason →
      ∃ pre post, fs = pre ++ FilterOutcome.reject reason :: post ∧
        ∀ f ∈ pre, runFilter f = none) := by
  refine ⟨rfl, ?_, ?_⟩
  · induction fs with
    | nil => simp [pipeline]
    | cons f rest ih =>
      cases f with
      | dataUnavailable => simpa [pipeline, runFilter] using ih
      | pass => simpa [pipeline, runFilter] using ih
      | reject r =>
        simp only [pipeline, runFilter, Option.isSome_some, true_iff]
        exact ⟨r, List.mem_cons_self _ _⟩
  · induction fs with
    | nil =>
      intro reason h
      simp [pipeline] at h
    | cons f rest ih =>
      intro reason h
      cases f with
      | dataUnavailable =>
        obtain ⟨pre, post, heq, hpre⟩ := ih reason (by simpa [pipeline, runFilter] using h)
        refine ⟨FilterOutcome.dataUnavailable :: pre, post, by simp [heq], ?_⟩
        intro f hf
        rcases List.mem_cons.mp hf with rfl | hf
        · rfl
        · exact hpre f hf
      | pass =>
        obtain ⟨pre, post, heq, hpre⟩ := ih reason (by simpa [pipeline, runFilter] using h)
        refine ⟨FilterOutcome.pass :: pre, post, by simp [heq], ?_⟩
        intro f hf
        rcases List.mem_cons.mp hf with rfl | hf
        · rfl
        · exact hpre f hf
      | reject r =>
        have hr : r = reason := by simpa [pipeline, runFilter] using h
        exact ⟨[], rest, by simp [hr], by simp⟩

/-- Witness for claim C9: a pipeline whose first filter has a failed data
fetch, whose second passes, and whose third and fourth reject, rejects
with the third filter's reason. -/
theorem C9_witness :
    pipeline [FilterOutcome.dataUnavailable, FilterOutcome.pass,
        FilterOutcome.reject "cvd made a new low", FilterOutcome.reject "negative premium"]
      = some "cvd made a new low" ∧
    ((pipeline [FilterOutcome.dataUnavailable, FilterOutcome.pass,
        FilterOutcome.reject "cvd made a new low",
        FilterOutcome.reject "negative premium"]).isSome ↔
      ∃ reason, FilterOutcome.reject reason
        ∈ [FilterOutcome.dataUnavailable, FilterOutcome.pass,
           FilterOutcome.reject "cvd made a new low",
           FilterOutcome.reject "negative premium"]) ∧
    (∃ pre post,
      [FilterOutcome.dataUnavailable, FilterOutcome.pass,
       FilterOutcome.reject "cvd made a new low", FilterOutcome.reject "negative premium"]
        = pre ++ FilterOutcome.reject "cvd made a new low" :: post ∧
      ∀ f ∈ pre, runFilter f = none) := by
  have hval : pipeline [FilterOutcome.dataUnavailable, FilterOutcome.pass,
      FilterOutcome.reject "cvd made a new low", FilterOutcome.reject "negative premium"]
      = some "cvd made a new low" := by
    simp [pipeline, runFilter]
  obtain ⟨_, hiff, hfirst⟩ := C9_risk_pipeline
    [FilterOutcome.dataUnavailable, FilterOutcome.pass,
     FilterOutcome.reject "cvd made a new low", FilterOutcome.reject "negative premium"]
  exact ⟨hval, hiff, hfirst "cvd made a new low" hval⟩

/-- Claim C10: the monitor loop catches and logs a cycle's exception
inside the loop body and never terminates because of it — every scheduled
cycle runs, every cycle (failing or not) is followed by the sleep of the
configured interval, and each failing cycle contributes exactly one
logged error. -/
theorem C10_monitor_loop_survives (interval : ℚ) (outcomes : List CycleOutcome) :
    ((runForever interval outcomes).countP isRanCycle = outcomes.length) ∧
    ((runForever interval outcomes).countP
        (fun e => decide (e = MonEvent.slept interval)) = outcomes.length) ∧
    ((runForever interval outcomes).countP isLoggedError
      = outcomes.countP isExnOutcome) := by
  induction outcomes with
  | nil => simp [runForever]
  | cons o rest ih =>
    obtain ⟨ih1, ih2, ih3⟩ := ih
    cases o <;>
      simp [runForever, isRanCycle, isLoggedError, isExnOutcome,
        List.countP_cons, List.countP_append, ih1, ih2, ih3]

end DuoLive
